import Mathlib

/-!
Verification of the go2_ros2_sdk WebRTC relay and telemetry pipeline.

This file gives a shallow embedding of the Python modules

  * go2_robot_sdk/infrastructure/webrtc/go2_message_parsers.py
  * go2_robot_sdk/infrastructure/webrtc/go2_connection.py
  * go2_robot_sdk/webrtc_relay/webrtc_relay_endpoint_go2.py
  * go2_robot_sdk/webrtc_relay/webrtc_relay_endpoint_webrtc.py
  * go2_robot_sdk/webrtc_relay/webrtc_relay_app_state.py
  * go2_robot_sdk/webrtc_relay/webrtc_relay_exceptions.py
  * go2_robot_sdk/webrtc_relay/webrtc_relay.py (exception handlers)

and proves the behavioural properties of the relay, the telemetry
decoder and the error taxonomy.  Python exceptions are modelled in an
`Except PyErr` channel; a `try`/`except` block in the source becomes an
explicit match on that channel.  External collaborators (json.loads, the
crypto module, the binary lidar pre-decoder, aiortc) are parameters of
the model.
-/

set_option linter.unusedVariables false

/-- A numeric value appearing in a JSON telemetry payload: a finite number
or one of the non-finite IEEE-754 values.  The parsers only test
finiteness (`math.isfinite`) and pass values through unchanged, so finite
values are carried abstractly as rationals. -/
inductive FVal where
  | fin (v : ℚ)
  | nan
  | inf
  | ninf
deriving DecidableEq, Repr

/-- Model of math.isfinite on a numeric value. -/
def FVal.isfinite : FVal → Bool
  | .fin _ => true
  | _ => false

/-- Python exception values raised or handled in the relay and connection
code. -/
inductive PyErr where
  | stateException (detail : String)
  | valueError (detail : String)
  | keyError (key : String)
  | indexError (detail : String)
  | runtimeError (detail : String)
  | timeoutError (detail : String)
  | httpException (status : Nat) (detail : String)
  | genericException (detail : String)
deriving DecidableEq, Repr

/-- Python `str()` of an exception value.  `str(KeyError(k))` is the repr
of the key, i.e. the key surrounded by single quotes (modelled for keys
containing no quote or backslash). -/
def pyStr : PyErr → String
  | .stateException d => d
  | .valueError d => d
  | .keyError k => "\x27" ++ k ++ "\x27"
  | .indexError d => d
  | .runtimeError d => d
  | .timeoutError d => d
  | .httpException _ d => d
  | .genericException d => d

/-- The exception class name of a `PyErr` value. -/
def errKind : PyErr → String
  | .stateException _ => "StateException"
  | .valueError _ => "ValueError"
  | .keyError _ => "KeyError"
  | .indexError _ => "IndexError"
  | .runtimeError _ => "RuntimeError"
  | .timeoutError _ => "TimeoutError"
  | .httpException _ _ => "HTTPException"
  | .genericException _ => "Exception"

/-- Python dict subscript `v[key]`: raises `KeyError(key)` when the key is
absent. -/
def getItem {α : Type} (v : Option α) (key : String) : Except PyErr α :=
  match v with
  | some a => .ok a
  | none => .error (.keyError key)

structure Vec3 where
  x : FVal
  y : FVal
  z : FVal
deriving DecidableEq, Repr

structure Quat where
  x : FVal
  y : FVal
  z : FVal
  w : FVal
deriving DecidableEq, Repr

/-- Embeds `OdometryData` as constructed by `parse_odometry_data` (entity fields
per spec section 3; the entity module itself is outside src). -/
structure OdometryData where
  position : Vec3
  orientation : Quat
deriving DecidableEq, Repr

/-- Embeds `RobotState` as constructed by `parse_sport_mode_state`. -/
structure RobotState where
  mode : Int
  progress : Int
  gait_type : Int
  position : List FVal
  body_height : FVal
  velocity : List FVal
  range_obstacle : List FVal
  foot_force : List FVal
  foot_position_body : List FVal
  foot_speed_body : List FVal
deriving DecidableEq, Repr

/-- Embeds `IMUData` as constructed by `parse_sport_mode_state`. -/
structure IMUData where
  quaternion : List FVal
  accelerometer : List FVal
  gyroscope : List FVal
  rpy : List FVal
  temperature : FVal
deriving DecidableEq, Repr

/-- Embeds `JointData`: the motor-state sequence is an opaque passthrough. -/
structure JointData where
  motor_state : List (List FVal)
deriving DecidableEq, Repr

/-- The externally decoded positions/UVs buffer consumed by
`parse_lidar_data`. -/
structure LidarDecoded where
  positions : List FVal
  uvs : Option (List FVal)
deriving DecidableEq, Repr

/-- Embeds `LidarData` as constructed by `parse_lidar_data`. -/
structure LidarData where
  positions : List FVal
  uvs : Option (List FVal)
  resolution : FVal
  origin : List FVal
  stamp : FVal
  width : Option FVal
  src_size : Option FVal
  compressed_data : Option (List Nat)
deriving DecidableEq, Repr

/-- The `imu_state` sub-dictionary of a sport-mode-state payload. -/
structure IMUInput where
  quaternion : List FVal
  accelerometer : List FVal
  gyroscope : List FVal
  rpy : List FVal
  temperature : FVal
deriving DecidableEq, Repr

/-- A well-shaped sport-mode-state payload dictionary (all keys present;
ill-shaped payloads are covered by the other `EnvData` variants, which
make the parser take its except-branch). -/
structure SportModeInput where
  mode : Int
  progress : Int
  gait_type : Int
  position : List FVal
  body_height : FVal
  velocity : List FVal
  range_obstacle : List FVal
  foot_force : List FVal
  foot_position_body : List FVal
  foot_speed_body : List FVal
  imu_state : IMUInput
deriving DecidableEq, Repr

/-- A well-shaped odometry payload dictionary (`pose.position`,
`pose.orientation`). -/
structure OdomInput where
  position : Vec3
  orientation : Quat
deriving DecidableEq, Repr

/-- The `data` field of a decoded data-channel JSON envelope: a tagged
union over the payload shapes the dispatch code feeds to each parser,
plus an opaque variant for anything else (any variant fed to a parser
expecting another shape makes that parser take its except-branch). -/
inductive EnvData where
  | str (s : String)
  | sport (d : SportModeInput)
  | odom (d : OdomInput)
  | lowState (motor_state : List (List FVal))
  | lidarMeta (resolution : Option FVal) (origin : Option (List FVal)) (stamp : Option FVal)
      (width : Option FVal) (src_size : Option FVal)
  | otherData
deriving DecidableEq, Repr

/-- Result of `json.loads` on a text data-channel message, restricted to
the keys the code reads.  A missing key is `none` (subscripting it raises
`KeyError`). -/
structure Envelope where
  ty : Option String
  topic : Option String
  data : Option EnvData
  decoded_data : Option (Option LidarDecoded)
  compressed_data : Option (List Nat)
deriving DecidableEq, Repr

/-- Modelled from the spec: the `RTC_TOPIC` constant table lives in
`domain/constants/webrtc_topics.py`, outside src.  Only the distinctness
of the four dispatch topics is used by any proof. -/
def RTC_TOPIC_ULIDAR_ARRAY : String := "rt/utlidar/voxel_map_compressed"

/-- Modelled from the spec: see `RTC_TOPIC_ULIDAR_ARRAY`. -/
def RTC_TOPIC_ROBOTODOM : String := "rt/utlidar/robot_pose"

/-- Modelled from the spec: see `RTC_TOPIC_ULIDAR_ARRAY`. -/
def RTC_TOPIC_LF_SPORT_MOD_STATE : String := "rt/lf/sportmodestate"

/-- Modelled from the spec: see `RTC_TOPIC_ULIDAR_ARRAY`. -/
def RTC_TOPIC_LOW_STATE : String := "rt/lf/lowstate"

/-- Embeds `go2_message_parsers._validated_float_list`: returns the list when all
elements are finite numerics, otherwise raises `ValueError`.  (On `FVal`
inputs the `isinstance` half of the source check always holds.) -/
def validated_float_list (data : List FVal) : Except PyErr (List FVal) :=
  if data.all FVal.isfinite then .ok data
  else .error (.valueError "list was not all floats or finite")

/-- Embeds `go2_message_parsers._validated_float`: returns the value when it is a
finite numeric, otherwise raises `ValueError` (`float()` is the identity
on the abstract numeric values). -/
def validated_float (value : FVal) : Except PyErr FVal :=
  if value.isfinite then .ok value
  else .error (.valueError "value is not int or float")

/-- The code inside the try-block of `parse_odometry_data`: all seven pose
scalars must be finite or a `ValueError` is raised. -/
def parse_odometry_data_body (data : EnvData) : Except PyErr OdometryData :=
  match data with
  | .odom d =>
    if ([d.position.x, d.position.y, d.position.z]
        ++ [d.orientation.x, d.orientation.y, d.orientation.z, d.orientation.w]).all
          FVal.isfinite then
      .ok { position := d.position, orientation := d.orientation }
    else
      .error (.valueError "Invalid odometry data - skipping")
  | _ => .error (.valueError "data is not a well-shaped pose dictionary")

/-- Embeds `go2_message_parsers.parse_odometry_data`: the surrounding try/except
turns any exception into `None`. -/
def parse_odometry_data (data : EnvData) : Option OdometryData :=
  (parse_odometry_data_body data).toOption

/-- The code inside the try-block of `parse_sport_mode_state`, validations
in source order.  `velocity`, `foot_force` and `temperature` are taken
from the payload without validation in the source. -/
def parse_sport_mode_state_body (data : EnvData) : Except PyErr (RobotState × IMUData) :=
  match data with
  | .sport d =>
    (validated_float_list d.position).bind fun position =>
    (validated_float d.body_height).bind fun body_height =>
    (validated_float_list d.range_obstacle).bind fun range_obstacle =>
    (validated_float_list d.foot_position_body).bind fun foot_position_body =>
    (validated_float_list d.foot_speed_body).bind fun foot_speed_body =>
    (validated_float_list d.imu_state.quaternion).bind fun quaternion =>
    (validated_float_list d.imu_state.accelerometer).bind fun accelerometer =>
    (validated_float_list d.imu_state.gyroscope).bind fun gyroscope =>
    (validated_float_list d.imu_state.rpy).bind fun rpy =>
    .ok ({ mode := d.mode, progress := d.progress, gait_type := d.gait_type,
           position := position, body_height := body_height,
           velocity := d.velocity,
           range_obstacle := range_obstacle,
           foot_force := d.foot_force,
           foot_position_body := foot_position_body,
           foot_speed_body := foot_speed_body },
         { quaternion := quaternion, accelerometer := accelerometer,
           gyroscope := gyroscope, rpy := rpy,
           temperature := d.imu_state.temperature })
  | _ => .error (.valueError "data is not a well-shaped sport-mode dictionary")

/-- Embeds `go2_message_parsers.parse_sport_mode_state`: the surrounding
try/except turns any exception into `None`; the `RobotState`/`IMUData`
pair is produced or discarded as a whole. -/
def parse_sport_mode_state (data : EnvData) : Option (RobotState × IMUData) :=
  (parse_sport_mode_state_body data).toOption

/-- Embeds `go2_message_parsers.parse_low_state`: the motor-state payload is an
opaque passthrough; any shape error is logged and yields `None`. -/
def parse_low_state (data : EnvData) : Option JointData :=
  match data with
  | .lowState ms => some { motor_state := ms }
  | _ => none

/-- The code inside the try-block of `parse_lidar_data`: a null external
decode result is discarded with a warning (`.ok none`). -/
def parse_lidar_data_body (message : Envelope) : Except PyErr (Option LidarData) :=
  (getItem message.decoded_data "decoded_data").bind fun decoded =>
  match decoded with
  | none => .ok none
  | some dd =>
    (getItem message.data "data").bind fun data =>
    match data with
    | .lidarMeta resolution origin stamp width src_size =>
      .ok (some { positions := dd.positions, uvs := dd.uvs,
                  resolution := resolution.getD (.fin 0),
                  origin := origin.getD [.fin 0, .fin 0, .fin 0],
                  stamp := stamp.getD (.fin 0),
                  width := width, src_size := src_size,
                  compressed_data := message.compressed_data })
    | _ => .error (.valueError "lidar data field is not a metadata dictionary")

/-- Embeds `go2_message_parsers.parse_lidar_data`: the surrounding try/except
turns any exception into `None`. -/
def parse_lidar_data (message : Envelope) : Option LidarData :=
  match parse_lidar_data_body message with
  | .ok r => r
  | .error _ => none

/-- Embeds `go2_message_parsers.parse_datachannel_message`, parameterized by the
external `json.loads`: a decode failure is re-raised as `ValueError`
rather than returning `None`. -/
def parse_datachannel_message (loads : String → Option Envelope) (raw_message : String) :
    Except PyErr Envelope :=
  match loads raw_message with
  | some env => .ok env
  | none => .error (.valueError "Failed to decode JSON message")

/-- A message delivered by a data channel: text (`str`) or binary
(`bytes`). -/
inductive DCMsg where
  | textMsg (s : String)
  | bytesMsg (b : List Nat)
deriving DecidableEq, Repr

/-- The `RobotData` per-message envelope (fields per spec section 3 and the
parser constructor calls; the entity module itself is outside src). -/
structure RobotData where
  robot_id : String
  timestamp : FVal
  lidar_data : Option LidarData := none
  odometry_data : Option OdometryData := none
  robot_state : Option RobotState := none
  imu_data : Option IMUData := none
  joint_data : Option JointData := none
  raw_message : Option DCMsg := none
deriving DecidableEq, Repr

/-- Embeds `go2_message_parsers.process_webrtc_message`: topic dispatch.  Key
subscripts here happen outside any parser try-block, so a missing key
raises to the caller. -/
def process_webrtc_message (msg : Envelope) (robot_id : String) :
    Except PyErr (Option RobotData) :=
  (getItem msg.ty "type").bind fun ty =>
  if ty ≠ "msg" then .ok none
  else
    (getItem msg.topic "topic").bind fun topic =>
    if topic = RTC_TOPIC_ULIDAR_ARRAY then
      .ok (some { robot_id := robot_id, timestamp := .fin 0,
                  lidar_data := parse_lidar_data msg })
    else if topic = RTC_TOPIC_ROBOTODOM then
      (getItem msg.data "data").bind fun data =>
      .ok (some { robot_id := robot_id, timestamp := .fin 0,
                  odometry_data := parse_odometry_data data })
    else if topic = RTC_TOPIC_LF_SPORT_MOD_STATE then
      (getItem msg.data "data").bind fun data =>
      (match parse_sport_mode_state data with
       | some rs_imu =>
         .ok (some { robot_id := robot_id, timestamp := .fin 0,
                     robot_state := some rs_imu.1, imu_data := some rs_imu.2 })
       | none => .ok (some { robot_id := robot_id, timestamp := .fin 0 }))
    else if topic = RTC_TOPIC_LOW_STATE then
      (getItem msg.data "data").bind fun data =>
      .ok (some { robot_id := robot_id, timestamp := .fin 0,
                  joint_data := parse_low_state data })
    else .ok none

/-- The mutable fields of `Go2Connection` read or written by the message
handling code, plus its construction-time configuration. -/
structure Go2ConnSt where
  robot_num : String
  is_validated : Bool
  decode_message : Bool
  decode_lidar : Bool
  has_on_message : Bool
  has_on_validated : Bool
  dc_open : Bool
deriving DecidableEq, Repr

/-- The serializable `data` argument of `Go2Connection.publish`. -/
inductive PubData where
  | str (s : String)
  | trafficSaving (instruction : String)
deriving DecidableEq, Repr

/-- A send on the robot-facing data channel.  `publish()` serializes a
type/topic/data dictionary with `json.dumps`; `publish_json_str()` sends
a caller-supplied string as-is.  The two are kept distinct so that any
re-encoding would be observable. -/
inductive Sent where
  | raw (s : String)
  | pub (msg_type : String) (topic : String) (data : PubData)
deriving DecidableEq, Repr

/-- The observable effects of handling one inbound data-channel message. -/
structure ConnEffects where
  sends : List Sent := []
  msgCB : List RobotData := []
  validatedCB : Nat := 0
  loggedError : Bool := false
deriving DecidableEq, Repr

/-- External collaborators of the connection code: `json.loads` (Python
stdlib), `ValidationCrypto.encrypt_key` (crypto module outside src; spec:
nonce to `base64(md5("UnitreeGo2_" + nonce))`), and `deal_array_buffer`
(binary lidar pre-decode, outside src; second argument is the
decode-lidar flag). -/
structure ExternalFns where
  loads : String → Option Envelope
  encrypt_key : String → String
  deal_array_buffer : List Nat → Bool → Option Envelope

/-- Embeds `Go2Connection.validate_robot_conn`: on the literal success marker,
publish the fixed video-on message, set `is_validated` and invoke the
registered `on_validated` callback; otherwise publish the transformed
challenge back as a validation message.  Its internal try/except means it
never raises (a non-string challenge makes `encrypt_key` raise, which is
caught and logged). -/
def validate_robot_conn (ext : ExternalFns) (st : Go2ConnSt) (message : EnvData) :
    Go2ConnSt × ConnEffects :=
  match message with
  | .str s =>
    if s = "Validation Ok." then
      ({ st with is_validated := true },
       { sends := [.pub "vid" "" (.str "on")],
         validatedCB := if st.has_on_validated then 1 else 0 })
    else
      (st, { sends := [.pub "validation" "" (.str (ext.encrypt_key s))] })
  | _ => (st, { loggedError := true })

/-- Lines 163-165 of `on_data_channel_message`: when a record was produced,
attach the raw message and invoke the `on_message` callback. -/
def emit_robot_data (st : Go2ConnSt) (message : DCMsg) (rdOpt : Option RobotData) :
    Except PyErr (Go2ConnSt × ConnEffects) :=
  match rdOpt with
  | some rd => .ok (st, { msgCB := [{ rd with raw_message := some message }] })
  | none => .ok (st, {})

/-- Lines 131-165 of `on_data_channel_message`: the callback/decode stage
after the validation check.  With decoding disabled the raw message is
forwarded unparsed in a fresh `RobotData` envelope. -/
def dispatch_stage (ext : ExternalFns) (st : Go2ConnSt) (message : DCMsg)
    (preParsed : Option Envelope) : Except PyErr (Go2ConnSt × ConnEffects) :=
  if st.has_on_message = false then .ok (st, {})
  else if st.decode_message = false then
    .ok (st, { msgCB := [{ robot_id := st.robot_num, timestamp := .fin 0,
                           raw_message := some message }] })
  else
    match message with
    | .textMsg s =>
      (match preParsed with
       | some env => Except.ok env
       | none => parse_datachannel_message ext.loads s).bind fun env =>
      (process_webrtc_message env st.robot_num).bind fun rdOpt =>
      emit_robot_data st message rdOpt
    | .bytesMsg b =>
      match ext.deal_array_buffer b st.decode_lidar with
      | some lidar_frame =>
        (process_webrtc_message lidar_frame st.robot_num).bind fun rdOpt =>
        emit_robot_data st message rdOpt
      | none => .ok (st, {})

/-- Lines 114-165 of `Go2Connection.on_data_channel_message` (the code
inside the handler's top-level try): the channel-open flag is forced
first; while unvalidated every text message is parsed and validation
messages are consumed by `validate_robot_conn`.  An `.error` is an
exception reaching the top-level except. -/
def on_data_channel_message_body (ext : ExternalFns) (st : Go2ConnSt) (message : DCMsg) :
    Except PyErr (Go2ConnSt × ConnEffects) :=
  let st1 := { st with dc_open := true }
  match st.is_validated, message with
  | false, .textMsg s =>
    (parse_datachannel_message ext.loads s).bind fun env =>
    (getItem env.ty "type").bind fun ty =>
    if ty = "validation" then
      (getItem env.data "data").bind fun data =>
      .ok (validate_robot_conn ext st1 data)
    else
      dispatch_stage ext st1 message (some env)
  | _, _ => dispatch_stage ext st1 message none

/-- Embeds `Go2Connection.on_data_channel_message`: the top-level try/except
catches every exception and logs it; the handler never raises to its
caller.  The only state write preceding any possible raise is forcing the
channel-open flag, so that write is kept on the caught-error path. -/
def on_data_channel_message (ext : ExternalFns) (st : Go2ConnSt) (message : DCMsg) :
    Go2ConnSt × ConnEffects :=
  match on_data_channel_message_body ext st message with
  | .ok r => r
  | .error _ => ({ st with dc_open := true }, { loggedError := true })

/-- Fold `on_data_channel_message` over a sequence of inbound messages,
accumulating the number of `on_validated` invocations. -/
def handleMessages (ext : ExternalFns) (st : Go2ConnSt) (msgs : List DCMsg) :
    Go2ConnSt × Nat :=
  match msgs with
  | [] => (st, 0)
  | m :: rest =>
    let r := on_data_channel_message ext st m
    let r2 := handleMessages ext r.1 rest
    (r2.1, r.2.validatedCB + r2.2)

/-- Embeds `Go2Connection.publish_json_str`: send the pre-serialized string as-is
when the robot-facing channel is open; its try/except never raises. -/
def publish_json_str (st : Go2ConnSt) (json_str : String) : List Sent :=
  if st.dc_open = false then []
  else [.raw json_str]

/-- A send on the client-facing (relay) data channel. -/
inductive ClientSend where
  | sendStr (s : String)
  | sendBytes (b : List Nat)
deriving DecidableEq, Repr

/-- Embeds `webrtc_relay_endpoint_go2._on_go2_message`: forward the preserved
`raw_message` to the client-facing data channel.  `relay_dc_open` is the
source guard `state.relay_rtc_data_channel` is present and its
`readyState` is `"open"`; an envelope whose `raw_message` is neither
`bytes` nor `str` is logged and not sent. -/
def on_go2_message (relay_dc_open : Bool) (robot_data : RobotData) : List ClientSend :=
  if relay_dc_open = false then []
  else
    match robot_data.raw_message with
    | some (.bytesMsg b) => [.sendBytes b]
    | some (.textMsg s) => [.sendStr s]
    | none => []

/-- Embeds `webrtc_relay_endpoint_webrtc._on_datachannel_message`: a text message
from the client data channel is forwarded to the robot via
`publish_json_str`; with no robot session, or a non-text message, nothing
is sent. -/
def on_datachannel_message (go2 : Option Go2ConnSt) (message : DCMsg) : List Sent :=
  match go2 with
  | none => []
  | some g =>
    match message with
    | .textMsg s => publish_json_str g s
    | .bytesMsg _ => []

/-- The robot-to-client relay pipeline: `Go2Connection.on_data_channel_message`
composed with the relay's `on_message` callback `_on_go2_message` (the
wiring made by the `/go2/connect` handler). -/
def go2_to_client_sends (ext : ExternalFns) (st : Go2ConnSt) (relay_dc_open : Bool)
    (message : DCMsg) : List ClientSend :=
  ((on_data_channel_message ext st message).2.msgCB).flatMap (on_go2_message relay_dc_open)

/-- The verbatim client-channel image of a robot data-channel message. -/
def clientSendOf : DCMsg → ClientSend
  | .textMsg s => .sendStr s
  | .bytesMsg b => .sendBytes b

/-- Embeds `WebRTCRelayAppState`: the process-wide relay singleton.  Client-facing
peer connections, data channels and video tracks are identified by ids. -/
structure RelayState where
  go2 : Option Go2ConnSt
  relay_rtc_peer_connection : Option Nat
  relay_rtc_data_channel : Option Nat
  go2_video_track : Option Nat
deriving DecidableEq, Repr

/-- Observable effects of a relay HTTP handler, in execution order. -/
inductive REffect where
  | constructedGo2
  | ranHandshake
  | closedPC (id : Nat)
  | closedDC (id : Nat)
  | createdPC (id : Nat)
  | subscribedVideoTrack (id : Nat)
  | sentVideoOn
deriving DecidableEq, Repr

/-- Outcome of a request handler: a returned value or a raised exception. -/
inductive HandlerResult (α : Type) where
  | ok (value : α)
  | raised (e : PyErr)
deriving DecidableEq, Repr

structure ConnectReply where
  robot_ip : String
deriving DecidableEq, Repr

/-- Embeds `webrtc_relay_endpoint_go2.connect` (the POST `/go2/connect` handler).
`newConn` is the `Go2Connection` the handler would construct (with
decoding disabled); `handshake` is the outcome of awaiting
`go2.connect()`. -/
def connect_handler (st : RelayState) (robot_ip : String) (newConn : Go2ConnSt)
    (handshake : Except PyErr Unit) :
    HandlerResult ConnectReply × RelayState × List REffect :=
  if st.go2.isSome then
    (.raised (.stateException
       "Already connected to Go2, call disconnect first before calling connect again"),
     st, [])
  else
    match handshake with
    | .error e =>
      (.raised (.httpException 502 ("GO2 connect failed: " ++ pyStr e)), st,
       [.constructedGo2, .ranHandshake])
    | .ok _ =>
      (.ok { robot_ip := robot_ip }, { st with go2 := some newConn },
       [.constructedGo2, .ranHandshake])

/-- Embeds `WebRTCRelayAppState.close_rtc_relay_connection`: best-effort close of
the client-facing peer connection and then the data channel; a close
failure is caught and logged, and each field is cleared in a finally
block regardless. -/
def close_rtc_relay_connection (st : RelayState) : RelayState × List REffect :=
  let step1 :=
    match st.relay_rtc_peer_connection with
    | some i => ({ st with relay_rtc_peer_connection := none }, [REffect.closedPC i])
    | none => (st, [])
  match step1.1.relay_rtc_data_channel with
  | some j => ({ step1.1 with relay_rtc_data_channel := none }, step1.2 ++ [REffect.closedDC j])
  | none => step1

structure OfferReply where
  sdp : String
  ty : String
deriving DecidableEq, Repr

/-- The effect of closing one optional resource. -/
def optEff (f : Nat → REffect) : Option Nat → List REffect
  | some i => [f i]
  | none => []

/-- Embeds `webrtc_relay_endpoint_webrtc.offer` (the POST `/webrtc/offer`
handler).  `newPcId` identifies the `RTCPeerConnection` the handler
constructs; `negotiation` is the combined outcome of the external aiortc
calls (`setRemoteDescription` / `createAnswer` / `setLocalDescription`),
yielding the local description on success.  Everything after the
existence check and teardown runs inside one try-block whose except
re-raises as `StateException`; the video re-trigger has its own inner
try/except and cannot fail the handler. -/
def offer_handler (st : RelayState) (newPcId : Nat)
    (negotiation : Except PyErr OfferReply) :
    HandlerResult OfferReply × RelayState × List REffect :=
  if st.go2.isNone then
    (.raised (.stateException
       "connection to the go2 hasn\x27t been established yet, call /connect first"),
     st, [])
  else
    let closed := close_rtc_relay_connection st
    let st2 := { closed.1 with relay_rtc_peer_connection := some newPcId }
    let effs := closed.2 ++ [REffect.createdPC newPcId]
      ++ optEff REffect.subscribedVideoTrack st2.go2_video_track
    match negotiation with
    | .error _ =>
      (.raised (.stateException
         "Failed to create relay rtc sessiondescriptionprotocol (SDP)"),
       st2, effs)
    | .ok reply =>
      (.ok reply, st2, effs ++ [REffect.sentVideoOn])

/-- The HTTP response produced for an exception reaching the boundary:
status code and `(detail, exception_type)` body per the
`@app.exception_handler` registrations in `webrtc_relay.py`.
`HTTPException` is handled by FastAPI itself and carries no
`exception_type` field; the catch-all handler uses the exception class
name. -/
structure ErrResponse where
  status : Nat
  detail : String
  exception_type : Option String
deriving DecidableEq, Repr

/-- See `ErrResponse`. -/
def exception_response : PyErr → ErrResponse
  | .stateException d => ⟨409, d, some "state_exception"⟩
  | .valueError d => ⟨422, d, some "value_error"⟩
  | .keyError k => ⟨422, pyStr (.keyError k), some "key_error"⟩
  | .indexError d => ⟨422, d, some "index_error"⟩
  | .runtimeError d => ⟨500, d, some "runtime_error"⟩
  | .timeoutError d => ⟨504, d, some "timeout_error"⟩
  | .httpException s d => ⟨s, d, none⟩
  | .genericException d => ⟨500, d, some "Exception"⟩

/-- A structured error body as read by `recreate_and_raise_exception`:
the two keys it looks up, `none` when absent. -/
structure ErrJson where
  detail : Option String
  exception_type : Option String
deriving DecidableEq, Repr

/-- Embeds `webrtc_relay_exceptions.recreate_and_raise_exception`: rebuild the
local exception from a structured error body.  Total: every input maps to
a raised exception, so the function never returns normally.  Python
f-string repr formatting in the generic messages is abbreviated to plain
concatenation. -/
def recreate_and_raise_exception (err_json : ErrJson) : PyErr :=
  match err_json.detail with
  | none => .genericException "detail and type unknown"
  | some detail =>
    match err_json.exception_type with
    | none => .genericException ("type unknown. detail=" ++ detail)
    | some ty =>
      if ty = "runtime_error" then .runtimeError detail
      else if ty = "value_error" then .valueError detail
      else if ty = "index_error" then .indexError detail
      else if ty = "key_error" then .keyError detail
      else if ty = "state_exception" then .stateException detail
      else if ty = "timeout_error" then .timeoutError detail
      else if ty = "asyncio_timeout_error" then
        .timeoutError ("asyncio.TimeoutError, detail=" ++ detail)
      else .genericException ("exception_type=" ++ ty ++ " : detail=" ++ detail)

/-- A resource closed by `Go2Connection.disconnect`. -/
inductive Resource where
  | peerConnection
  | dataChannel
  | httpClient
deriving DecidableEq, Repr

/-- One try/except block of `Go2Connection.disconnect`: run the close
action, catch any exception and report whether one was logged. -/
def tryCloseLog (close_action : Except PyErr Unit) : Bool :=
  match close_action with
  | .ok _ => false
  | .error _ => true

/-- Embeds `Go2Connection.disconnect`, over arbitrary outcomes of the three
external close calls (`pc.close()`, `data_channel.close()`,
`http_client.close()`).  Written in the exception monad: an uncaught
exception would abort the remaining steps and propagate, but each step is
individually wrapped in its own try/except.  Returns the close attempts
in execution order with their logged-failure flags. -/
def go2_disconnect (close_pc close_dc close_http : Except PyErr Unit) :
    Except PyErr (List (Resource × Bool)) :=
  let logged_pc := tryCloseLog close_pc
  let logged_dc := tryCloseLog close_dc
  let logged_http := tryCloseLog close_http
  .ok [(.peerConnection, logged_pc), (.dataChannel, logged_dc), (.httpClient, logged_http)]

/-- An all-finite, well-shaped sport-mode-state payload used as a baseline
for concrete evaluations. -/
def sportInputFinite : SportModeInput :=
  { mode := 1, progress := 0, gait_type := 1,
    position := [.fin 0, .fin 0, .fin 0],
    body_height := .fin (3 / 20),
    velocity := [.fin 0, .fin 0, .fin 0],
    range_obstacle := [.fin 1, .fin 1, .fin 1, .fin 1],
    foot_force := [.fin 0, .fin 0, .fin 0, .fin 0],
    foot_position_body := List.replicate 12 (.fin 0),
    foot_speed_body := List.replicate 12 (.fin 0),
    imu_state := { quaternion := [.fin 1, .fin 0, .fin 0, .fin 0],
                   accelerometer := [.fin 0, .fin 0, .fin (49 / 5)],
                   gyroscope := [.fin 0, .fin 0, .fin 0],
                   rpy := [.fin 0, .fin 0, .fin 0],
                   temperature := .fin 30 } }

/-- The baseline payload with NaN injected into `velocity`. -/
def sportInputNaNVelocity : SportModeInput :=
  { sportInputFinite with velocity := [.nan, .fin 0, .fin 0] }

/-- The baseline payload with NaN injected into `imu_state.temperature`. -/
def sportInputNaNTemperature : SportModeInput :=
  { sportInputFinite with
    imu_state := { sportInputFinite.imu_state with temperature := .nan } }

/-- The baseline payload with infinity injected into `foot_force`. -/
def sportInputInfFootForce : SportModeInput :=
  { sportInputFinite with foot_force := [.inf, .fin 0, .fin 0, .fin 0] }

/-- An external-collaborator bundle whose `json.loads` fails on every
input: it agrees with the real `json.loads` on inputs that are not valid
JSON, which is all any proof evaluates it on. -/
def extUnparseable : ExternalFns :=
  { loads := fun _ => none,
    encrypt_key := fun s => s,
    deal_array_buffer := fun _ _ => none }

/-- The envelope of a validation message carrying challenge data `d`. -/
def validationEnvelope (d : String) : Envelope :=
  { ty := some "validation", topic := none, data := some (.str d),
    decoded_data := none, compressed_data := none }

/-- An external-collaborator bundle whose `json.loads` recognises two
fixed validation messages (used to drive the validation flow on concrete
inputs). -/
def extValidation : ExternalFns :=
  { loads := fun s =>
      if s = "val-ok" then some (validationEnvelope "Validation Ok.")
      else if s = "val-ch" then some (validationEnvelope "abc123")
      else none,
    encrypt_key := fun s => "encrypted." ++ s,
    deal_array_buffer := fun _ _ => none }

/-- The robot-facing connection state as wired by the `/go2/connect`
handler (decoding disabled, callbacks registered), after validation. -/
def relayGo2Conn : Go2ConnSt :=
  { robot_num := "0", is_validated := true, decode_message := false,
    decode_lidar := false, has_on_message := true, has_on_validated := true,
    dc_open := true }

/-- The same connection state before validation completes. -/
def unvalidatedConn : Go2ConnSt := { relayGo2Conn with is_validated := false }

/-- A relay singleton state with a robot session stored and a client-facing
session open. -/
def relayStateFull : RelayState :=
  { go2 := some relayGo2Conn, relay_rtc_peer_connection := some 7,
    relay_rtc_data_channel := some 8, go2_video_track := some 9 }

/-- The empty relay singleton state (fresh process). -/
def relayStateEmpty : RelayState :=
  { go2 := none, relay_rtc_peer_connection := none,
    relay_rtc_data_channel := none, go2_video_track := none }

/-- Destructs a successful `Except.bind`: the first stage succeeded and
the continuation succeeded on its value. -/
theorem except_bind_ok {ε α β : Type} {x : Except ε α} {f : α → Except ε β} {r : β}
    (h : x.bind f = .ok r) : ∃ a, x = .ok a ∧ f a = .ok r := by
  cases x with
  | ok a => exact ⟨a, rfl, h⟩
  | error e => simp [Except.bind] at h

/-- C2: the claim states that a NaN or infinity injected at any field
position of a telemetry record — explicitly including
`RobotState.velocity`, `RobotState.foot_force` and `IMUData.temperature`
— makes the decoder return no record.  Evaluating the embedded
`parse_sport_mode_state` shows the code violates this: `velocity`,
`foot_force` and `temperature` are taken from the payload without
validation, so a fully populated record carrying the non-finite value is
returned.  The validated positions (here `position`, and all seven
odometry scalars) do reject as claimed. -/
theorem C2_nonfinite_values_pass_through :
    ((parse_sport_mode_state (.sport sportInputNaNVelocity)).map fun r => r.1.velocity)
        = some [.nan, .fin 0, .fin 0] ∧
    ((parse_sport_mode_state (.sport sportInputNaNTemperature)).map fun r => r.2.temperature)
        = some .nan ∧
    ((parse_sport_mode_state (.sport sportInputInfFootForce)).map fun r => r.1.foot_force)
        = some [.inf, .fin 0, .fin 0, .fin 0] ∧
    parse_sport_mode_state
        (.sport { sportInputFinite with position := [.nan, .fin 0, .fin 0] }) = none ∧
    parse_odometry_data
        (.odom { position := ⟨.nan, .fin 0, .fin 0⟩,
                 orientation := ⟨.fin 0, .fin 0, .fin 0, .fin 1⟩ }) = none := by
  refine ⟨rfl, rfl, rfl, rfl, rfl⟩

/-- C3: calling the `/go2/connect` handler while a robot session is
already stored raises `StateException` (mapped to HTTP 409 by the
app-level handler) before constructing any new connection or running any
handshake (no effects), and leaves the whole relay state — in particular
the stored first session — unchanged. -/
theorem C3_second_connect_conflicts (st : RelayState) (s : Go2ConnSt)
    (robot_ip : String) (newConn : Go2ConnSt) (handshake : Except PyErr Unit)
    (h : st.go2 = some s) :
    connect_handler st robot_ip newConn handshake =
      (.raised (.stateException
         "Already connected to Go2, call disconnect first before calling connect again"),
       st, []) ∧
    (connect_handler st robot_ip newConn handshake).2.1.go2 = some s ∧
    (exception_response (.stateException
       "Already connected to Go2, call disconnect first before calling connect again")).status
      = 409 := by
  have hs : st.go2.isSome = true := by rw [h]; rfl
  refine ⟨?_, ?_, rfl⟩
  · simp [connect_handler, hs]
  · simp [connect_handler, hs, h]

/-- Closed witness for C3 at a concrete already-connected relay state. -/
theorem C3_second_connect_conflicts_witness :
    connect_handler relayStateFull "192.168.12.1" relayGo2Conn (.ok ()) =
      (.raised (.stateException
         "Already connected to Go2, call disconnect first before calling connect again"),
       relayStateFull, []) :=
  (C3_second_connect_conflicts relayStateFull relayGo2Conn "192.168.12.1" relayGo2Conn
    (.ok ()) rfl).1

/-- C5: atomic create-or-fail for `/go2/connect`.  If the handshake
(`go2.connect()`) raises any exception, the handler raises
`HTTPException(502)` and `state.go2` stays `None` exactly as before the
call; `state.go2` is assigned (to the newly constructed connection) only
when the handshake returns successfully. -/
theorem C5_connect_atomic (st : RelayState) (robot_ip : String) (newConn : Go2ConnSt)
    (e : PyErr) (h : st.go2 = none) :
    connect_handler st robot_ip newConn (.error e) =
      (.raised (.httpException 502 ("GO2 connect failed: " ++ pyStr e)), st,
       [.constructedGo2, .ranHandshake]) ∧
    (connect_handler st robot_ip newConn (.error e)).2.1.go2 = none ∧
    (connect_handler st robot_ip newConn (.ok ())).2.1.go2 = some newConn := by
  have hs : st.go2.isSome = false := by rw [h]; rfl
  refine ⟨?_, ?_, ?_⟩ <;> simp [connect_handler, hs, h]

/-- Closed witness for C5 at a concrete fresh relay state and a concrete
handshake failure. -/
theorem C5_connect_atomic_witness :
    connect_handler relayStateEmpty "192.168.12.1" relayGo2Conn
        (.error (.runtimeError "boom")) =
      (.raised (.httpException 502 "GO2 connect failed: boom"), relayStateEmpty,
       [.constructedGo2, .ranHandshake]) :=
  (C5_connect_atomic relayStateEmpty "192.168.12.1" relayGo2Conn
    (.runtimeError "boom") rfl).1

/-- C8: best-effort multi-resource teardown.  Over every possible outcome
of the three external close calls, `Go2Connection.disconnect` returns
normally (never raises), attempts all three closes — peer connection,
data channel, HTTP client, in that order — and each close attempt's
logged-failure flag depends only on its own close call, so a failure in
one close never prevents the others from being attempted. -/
theorem C8_disconnect_best_effort (close_pc close_dc close_http : Except PyErr Unit) :
    (∃ attempts, go2_disconnect close_pc close_dc close_http = .ok attempts ∧
       attempts.map Prod.fst = [.peerConnection, .dataChannel, .httpClient]) ∧
    go2_disconnect close_pc close_dc close_http =
      .ok [(.peerConnection, tryCloseLog close_pc),
           (.dataChannel, tryCloseLog close_dc),
           (.httpClient, tryCloseLog close_http)] :=
  ⟨⟨_, rfl, rfl⟩, rfl⟩

/-- C10: once the robot-session existence check passes, every failure of
the negotiation steps inside the `/webrtc/offer` try-block (of any
exception kind: runtime, transport, timeout, ...) is re-raised as
`StateException`, which the HTTP boundary reports as a 409 with
`exception_type` `state_exception` — never as the original error kind. -/
theorem C10_offer_failures_become_state_conflicts (st : RelayState) (g : Go2ConnSt)
    (newPcId : Nat) (e : PyErr) (h : st.go2 = some g) :
    (offer_handler st newPcId (.error e)).1 =
      .raised (.stateException
        "Failed to create relay rtc sessiondescriptionprotocol (SDP)") ∧
    exception_response
        (.stateException "Failed to create relay rtc sessiondescriptionprotocol (SDP)")
      = ⟨409, "Failed to create relay rtc sessiondescriptionprotocol (SDP)",
         some "state_exception"⟩ := by
  have hs : st.go2.isNone = false := by rw [h]; rfl
  refine ⟨?_, rfl⟩
  simp [offer_handler, hs]

/-- Closed witness for C10 at a concrete connected relay state and a
concrete timeout failure. -/
theorem C10_offer_failures_become_state_conflicts_witness :
    (offer_handler relayStateFull 12 (.error (.timeoutError "ice timed out"))).1 =
      .raised (.stateException
        "Failed to create relay rtc sessiondescriptionprotocol (SDP)") :=
  (C10_offer_failures_become_state_conflicts relayStateFull relayGo2Conn 12
    (.timeoutError "ice timed out") rfl).1

/-- C4: behaviour of the `/webrtc/offer` handler.  With no robot session
it raises `StateException` and leaves the relay state unchanged (no
effects).  Otherwise the pre-existing client-facing peer connection and
data channel (when present) are closed and cleared from state strictly
before the new client-facing peer connection is created — the effect
trace is exactly close-old, create-new, attach-video, then the
negotiation outcome — so a prior session is never silently reused; the
robot session itself is untouched. -/
theorem C4_offer_closes_prior_session (st : RelayState) (newPcId : Nat)
    (negotiation : Except PyErr OfferReply) :
    (st.go2 = none →
      offer_handler st newPcId negotiation =
        (.raised (.stateException
           "connection to the go2 hasn\x27t been established yet, call /connect first"),
         st, [])) ∧
    (∀ g, st.go2 = some g →
      (offer_handler st newPcId negotiation).2.2 =
          optEff REffect.closedPC st.relay_rtc_peer_connection
          ++ optEff REffect.closedDC st.relay_rtc_data_channel
          ++ [REffect.createdPC newPcId]
          ++ optEff REffect.subscribedVideoTrack st.go2_video_track
          ++ (match negotiation with
              | .ok _ => [REffect.sentVideoOn]
              | .error _ => []) ∧
      (offer_handler st newPcId negotiation).2.1.relay_rtc_peer_connection = some newPcId ∧
      (offer_handler st newPcId negotiation).2.1.relay_rtc_data_channel = none ∧
      (offer_handler st newPcId negotiation).2.1.go2 = some g) := by
  obtain ⟨g2, pc, dc, vt⟩ := st
  constructor
  · intro h
    subst h
    cases negotiation <;> rfl
  · intro g hg
    simp only at hg
    subst hg
    cases pc <;> cases dc <;> cases negotiation <;>
      exact ⟨by simp [offer_handler, close_rtc_relay_connection, optEff], rfl, rfl, rfl⟩

/-- Closed witness for C4: at a concrete state with an open prior session
the old peer connection (id 7) and data channel (id 8) are closed before
the new peer connection (id 12) is created. -/
theorem C4_offer_closes_prior_session_witness :
    (offer_handler relayStateFull 12 (.ok { sdp := "answer-sdp", ty := "answer" })).2.2 =
      [.closedPC 7, .closedDC 8, .createdPC 12, .subscribedVideoTrack 9, .sentVideoOn] :=
  ((C4_offer_closes_prior_session relayStateFull 12
      (.ok { sdp := "answer-sdp", ty := "answer" })).2 relayGo2Conn rfl).1

/-- C7: error taxonomy round-trip.  For each internal error kind in
StateException, ValueError, KeyError, IndexError, RuntimeError,
TimeoutError, with any detail string: the HTTP boundary serializes it to
its `(status, detail, exception_type)` response (409 for state conflicts,
422 for value/key/index errors, 500 for runtime errors, 504 for
timeouts), and feeding that body to `recreate_and_raise_exception`
raises an exception of the equivalent local kind carrying the body's
detail (for `KeyError` the body detail is the repr-quoted key, which the
reconstruction preserves).  `recreate_and_raise_exception` is total —
it always raises — and raises a generic `Exception` for missing or
unknown tags. -/
theorem C7_error_taxonomy_roundtrip (d : String) :
    ((exception_response (.stateException d)).status = 409 ∧
     recreate_and_raise_exception ⟨some (exception_response (.stateException d)).detail,
         (exception_response (.stateException d)).exception_type⟩ = .stateException d) ∧
    ((exception_response (.valueError d)).status = 422 ∧
     recreate_and_raise_exception ⟨some (exception_response (.valueError d)).detail,
         (exception_response (.valueError d)).exception_type⟩ = .valueError d) ∧
    ((exception_response (.keyError d)).status = 422 ∧
     recreate_and_raise_exception ⟨some (exception_response (.keyError d)).detail,
         (exception_response (.keyError d)).exception_type⟩
       = .keyError (exception_response (.keyError d)).detail) ∧
    ((exception_response (.indexError d)).status = 422 ∧
     recreate_and_raise_exception ⟨some (exception_response (.indexError d)).detail,
         (exception_response (.indexError d)).exception_type⟩ = .indexError d) ∧
    ((exception_response (.runtimeError d)).status = 500 ∧
     recreate_and_raise_exception ⟨some (exception_response (.runtimeError d)).detail,
         (exception_response (.runtimeError d)).exception_type⟩ = .runtimeError d) ∧
    ((exception_response (.timeoutError d)).status = 504 ∧
     recreate_and_raise_exception ⟨some (exception_response (.timeoutError d)).detail,
         (exception_response (.timeoutError d)).exception_type⟩ = .timeoutError d) ∧
    (∀ t, errKind (recreate_and_raise_exception ⟨none, t⟩) = "Exception") ∧
    (errKind (recreate_and_raise_exception ⟨some d, none⟩) = "Exception") ∧
    (∀ ty, ty ∉ (["runtime_error", "value_error", "index_error", "key_error",
        "state_exception", "timeout_error", "asyncio_timeout_error"] : List String) →
      errKind (recreate_and_raise_exception ⟨some d, some ty⟩) = "Exception") := by
  refine ⟨⟨rfl, ?_⟩, ⟨rfl, ?_⟩, ⟨rfl, ?_⟩, ⟨rfl, ?_⟩, ⟨rfl, ?_⟩, ⟨rfl, ?_⟩,
      fun t => rfl, rfl, ?_⟩
  · rfl
  · rfl
  · rfl
  · rfl
  · rfl
  · rfl
  · intro ty hty
    simp only [List.mem_cons, List.not_mem_nil, or_false, not_or] at hty
    obtain ⟨h1, h2, h3, h4, h5, h6, h7⟩ := hty
    simp only [recreate_and_raise_exception, if_neg h1, if_neg h2, if_neg h3, if_neg h4,
      if_neg h5, if_neg h6, if_neg h7]
    rfl

/-- Closed witness for C7 at a concrete detail and a concrete unknown
tag. -/
theorem C7_error_taxonomy_roundtrip_witness :
    recreate_and_raise_exception ⟨some (exception_response (.stateException "boom")).detail,
        (exception_response (.stateException "boom")).exception_type⟩
      = .stateException "boom" ∧
    errKind (recreate_and_raise_exception ⟨some "boom", some "weird_tag"⟩) = "Exception" := by
  have h := C7_error_taxonomy_roundtrip "boom"
  exact ⟨h.1.2, h.2.2.2.2.2.2.2.2 "weird_tag" (by decide)⟩

/-- Helper: a successful `emit_robot_data` leaves the state unchanged and
triggers no `on_validated` call. -/
theorem emit_robot_data_ok (st : Go2ConnSt) (m : DCMsg) (o : Option RobotData)
    (r : Go2ConnSt × ConnEffects) (h : emit_robot_data st m o = .ok r) :
    r.1 = st ∧ r.2.validatedCB = 0 := by
  unfold emit_robot_data at h
  split at h <;> (simp only [Except.ok.injEq] at h; subst h; exact ⟨rfl, rfl⟩)

/-- Helper: a successful `dispatch_stage` leaves the state unchanged and
triggers no `on_validated` call. -/
theorem dispatch_stage_ok (ext : ExternalFns) (st : Go2ConnSt) (m : DCMsg)
    (pre : Option Envelope) (r : Go2ConnSt × ConnEffects)
    (h : dispatch_stage ext st m pre = .ok r) :
    r.1 = st ∧ r.2.validatedCB = 0 := by
  unfold dispatch_stage at h
  split at h
  · simp only [Except.ok.injEq] at h; subst h; exact ⟨rfl, rfl⟩
  · split at h
    · simp only [Except.ok.injEq] at h; subst h; exact ⟨rfl, rfl⟩
    · split at h
      · obtain ⟨env, -, h2⟩ := except_bind_ok h
        obtain ⟨rdOpt, -, h3⟩ := except_bind_ok h2
        exact emit_robot_data_ok _ _ _ _ h3
      · split at h
        · obtain ⟨rdOpt, -, h2⟩ := except_bind_ok h
          exact emit_robot_data_ok _ _ _ _ h2
        · simp only [Except.ok.injEq] at h; subst h; exact ⟨rfl, rfl⟩

/-- Helper: `validate_robot_conn` calls `on_validated` at most once, and
whenever it calls it the session has become validated. -/
theorem validate_robot_conn_cb (ext : ExternalFns) (st : Go2ConnSt) (d : EnvData) :
    (validate_robot_conn ext st d).2.validatedCB ≤ 1 ∧
    ((validate_robot_conn ext st d).2.validatedCB ≠ 0 →
      (validate_robot_conn ext st d).1.is_validated = true) := by
  unfold validate_robot_conn
  rcases d with s | _ | _ | _ | _ | _
  · by_cases hs : s = "Validation Ok."
    · by_cases hv : st.has_on_validated <;> simp [hs, hv]
    · simp [hs]
  all_goals simp

/-- Helper: `validate_robot_conn` never invokes the `on_message`
callback. -/
theorem validate_robot_conn_msgCB (ext : ExternalFns) (st : Go2ConnSt) (d : EnvData) :
    (validate_robot_conn ext st d).2.msgCB = [] := by
  unfold validate_robot_conn
  rcases d with s | _ | _ | _ | _ | _
  · by_cases hs : s = "Validation Ok." <;> simp [hs]
  all_goals simp


/-- Helper: invariants of one successful run of the message-handler body:
the `on_validated` callback fires at most once, only together with the
validated flag being set, and never fires once the session is already
validated (which is also preserved). -/
theorem on_message_body_ok (ext : ExternalFns) (st : Go2ConnSt) (m : DCMsg)
    (r : Go2ConnSt × ConnEffects) (h : on_data_channel_message_body ext st m = .ok r) :
    r.2.validatedCB ≤ 1 ∧
    (r.2.validatedCB ≠ 0 → r.1.is_validated = true) ∧
    (st.is_validated = true → r.2.validatedCB = 0 ∧ r.1.is_validated = true) := by
  obtain ⟨rn, vflag, dm, dl, hm, hv, dco⟩ := st
  cases vflag with
  | true =>
    cases m with
    | textMsg s =>
      simp only [on_data_channel_message_body] at h
      have hd := dispatch_stage_ok ext _ _ none _ h
      exact ⟨by omega, fun hc => absurd hd.2 hc, fun _ => ⟨hd.2, by rw [hd.1]⟩⟩
    | bytesMsg b =>
      simp only [on_data_channel_message_body] at h
      have hd := dispatch_stage_ok ext _ _ none _ h
      exact ⟨by omega, fun hc => absurd hd.2 hc, fun _ => ⟨hd.2, by rw [hd.1]⟩⟩
  | false =>
    cases m with
    | textMsg s =>
      simp only [on_data_channel_message_body] at h
      obtain ⟨env, -, h2⟩ := except_bind_ok h
      obtain ⟨ty, -, h3⟩ := except_bind_ok h2
      by_cases hty : ty = "validation"
      · rw [if_pos hty] at h3
        obtain ⟨data, -, h4⟩ := except_bind_ok h3
        simp only [Except.ok.injEq] at h4
        subst h4
        refine ⟨(validate_robot_conn_cb ext _ data).1, (validate_robot_conn_cb ext _ data).2,
          fun hcontra => by simp at hcontra⟩
      · rw [if_neg hty] at h3
        have hd := dispatch_stage_ok ext _ _ (some env) _ h3
        exact ⟨by omega, fun hc => absurd hd.2 hc, fun hcontra => by simp at hcontra⟩
    | bytesMsg b =>
      simp only [on_data_channel_message_body] at h
      have hd := dispatch_stage_ok ext _ _ none _ h
      exact ⟨by omega, fun hc => absurd hd.2 hc, fun hcontra => by simp at hcontra⟩

/-- Helper: the invariants of `on_message_body_ok` hold for the full
handler (whose top-level except makes it total). -/
theorem on_message_invariants (ext : ExternalFns) (st : Go2ConnSt) (m : DCMsg) :
    (on_data_channel_message ext st m).2.validatedCB ≤ 1 ∧
    ((on_data_channel_message ext st m).2.validatedCB ≠ 0 →
      (on_data_channel_message ext st m).1.is_validated = true) ∧
    (st.is_validated = true →
      (on_data_channel_message ext st m).2.validatedCB = 0 ∧
      (on_data_channel_message ext st m).1.is_validated = true) := by
  cases hbody : on_data_channel_message_body ext st m with
  | ok r =>
    have hinv := on_message_body_ok ext st m r hbody
    simp only [on_data_channel_message, hbody]
    exact hinv
  | error e =>
    simp only [on_data_channel_message, hbody]
    exact ⟨Nat.zero_le 1, by simp, fun hvv => ⟨by simp, hvv⟩⟩

/-- Helper: once validated, no later message ever fires `on_validated`
again, and the session stays validated. -/
theorem handleMessages_validated_zero (ext : ExternalFns) (msgs : List DCMsg) :
    ∀ st : Go2ConnSt, st.is_validated = true →
      (handleMessages ext st msgs).2 = 0 ∧
      (handleMessages ext st msgs).1.is_validated = true := by
  induction msgs with
  | nil => exact fun st h => ⟨rfl, h⟩
  | cons m rest ih =>
    intro st h
    have h1 := (on_message_invariants ext st m).2.2 h
    have h2 := ih (on_data_channel_message ext st m).1 h1.2
    simp only [handleMessages]
    refine ⟨?_, h2.2⟩
    rw [h1.1, h2.1]

/-- Helper: over any message sequence from any starting state,
`on_validated` fires at most once. -/
theorem handleMessages_cb_le_one (ext : ExternalFns) (msgs : List DCMsg) :
    ∀ st : Go2ConnSt, (handleMessages ext st msgs).2 ≤ 1 := by
  induction msgs with
  | nil => exact fun st => Nat.zero_le 1
  | cons m rest ih =>
    intro st
    obtain ⟨hle, himp, -⟩ := on_message_invariants ext st m
    simp only [handleMessages]
    by_cases h0 : (on_data_channel_message ext st m).2.validatedCB = 0
    · have := ih (on_data_channel_message ext st m).1
      omega
    · have hz := (handleMessages_validated_zero ext rest
        (on_data_channel_message ext st m).1 (himp h0)).1
      omega

/-- Helper: once validated, the handler body goes straight to the
dispatch stage (no validation inspection). -/
theorem body_validated_eq (ext : ExternalFns) (st : Go2ConnSt) (m : DCMsg)
    (hsv : st.is_validated = true) :
    on_data_channel_message_body ext st m
      = dispatch_stage ext { st with dc_open := true } m none := by
  obtain ⟨rn, vflag, dm, dl, hm, hv, dco⟩ := st
  have h2 : vflag = true := hsv
  subst h2
  cases m <;> rfl

/-- Helper: binary messages skip the validation inspection even while
unvalidated. -/
theorem body_unvalidated_bytes_eq (ext : ExternalFns) (st : Go2ConnSt) (b : List Nat)
    (hsv : st.is_validated = false) :
    on_data_channel_message_body ext st (.bytesMsg b)
      = dispatch_stage ext { st with dc_open := true } (.bytesMsg b) none := by
  obtain ⟨rn, vflag, dm, dl, hm, hv, dco⟩ := st
  have h2 : vflag = false := hsv
  subst h2
  rfl

/-- Helper: while unvalidated, a text message is parsed and a validation
envelope is consumed by `validate_robot_conn`; any other envelope falls
through to the dispatch stage. -/
theorem body_unvalidated_text_eq (ext : ExternalFns) (st : Go2ConnSt) (s : String)
    (hsv : st.is_validated = false) :
    on_data_channel_message_body ext st (.textMsg s)
      = (parse_datachannel_message ext.loads s).bind fun env =>
        (getItem env.ty "type").bind fun ty =>
        if ty = "validation" then
          (getItem env.data "data").bind fun data =>
          Except.ok (validate_robot_conn ext { st with dc_open := true } data)
        else dispatch_stage ext { st with dc_open := true } (.textMsg s) (some env) := by
  obtain ⟨rn, vflag, dm, dl, hm, hv, dco⟩ := st
  have h2 : vflag = false := hsv
  subst h2
  rfl

/-- Helper: with decoding disabled, `dispatch_stage` either drops the
message (no callback registered) or forwards exactly the raw message in a
fresh envelope. -/
theorem dispatch_stage_decode_false (ext : ExternalFns) (st : Go2ConnSt) (m : DCMsg)
    (pre : Option Envelope) (hdec : st.decode_message = false) :
    dispatch_stage ext st m pre = .ok (st, {}) ∨
    dispatch_stage ext st m pre =
      .ok (st, { msgCB := [{ robot_id := st.robot_num, timestamp := .fin 0,
                             raw_message := some m }] }) := by
  unfold dispatch_stage
  by_cases hm : st.has_on_message = false
  · left; rw [if_pos hm]
  · right; rw [if_neg hm, if_pos hdec]

/-- Helper: with decoding disabled, whatever the handler hands to
`on_message` is a fresh envelope carrying exactly the raw inbound
message (or nothing at all is handed over). -/
theorem on_message_msgCB_decode_false (ext : ExternalFns) (st : Go2ConnSt) (m : DCMsg)
    (hdec : st.decode_message = false) :
    (on_data_channel_message ext st m).2.msgCB = [] ∨
    (on_data_channel_message ext st m).2.msgCB =
      [{ robot_id := st.robot_num, timestamp := .fin 0, raw_message := some m }] := by
  have hdec1 : ({ st with dc_open := true } : Go2ConnSt).decode_message = false := hdec
  cases hbody : on_data_channel_message_body ext st m with
  | error e => left; simp [on_data_channel_message, hbody]
  | ok r =>
    simp only [on_data_channel_message, hbody]
    cases hsv : st.is_validated with
    | true =>
      rw [body_validated_eq ext st m hsv] at hbody
      rcases dispatch_stage_decode_false ext _ m none hdec1 with hd | hd <;>
        (rw [hd] at hbody; simp only [Except.ok.injEq] at hbody; subst hbody)
      · left; rfl
      · right; rfl
    | false =>
      cases m with
      | bytesMsg b =>
        rw [body_unvalidated_bytes_eq ext st b hsv] at hbody
        rcases dispatch_stage_decode_false ext _ (.bytesMsg b) none hdec1 with hd | hd <;>
          (rw [hd] at hbody; simp only [Except.ok.injEq] at hbody; subst hbody)
        · left; rfl
        · right; rfl
      | textMsg s =>
        rw [body_unvalidated_text_eq ext st s hsv] at hbody
        obtain ⟨env, -, h2⟩ := except_bind_ok hbody
        obtain ⟨ty, -, h3⟩ := except_bind_ok h2
        by_cases hty : ty = "validation"
        · rw [if_pos hty] at h3
          obtain ⟨data, -, h4⟩ := except_bind_ok h3
          simp only [Except.ok.injEq] at h4
          subst h4
          left
          exact validate_robot_conn_msgCB ext _ data
        · rw [if_neg hty] at h3
          rcases dispatch_stage_decode_false ext _ (.textMsg s) (some env) hdec1 with hd | hd <;>
            (rw [hd] at h3; simp only [Except.ok.injEq] at h3; subst h3)
          · left; rfl
          · right; rfl

/-- C1: verbatim relay routing.  With the relay wiring (decoding
disabled): (a) in relay operation — validated robot session, `on_message`
callback registered, client data channel open — every string or bytes
message from the robot is sent to the client channel exactly once and
byte-for-byte unchanged; (b) in every state, anything the relay sends to
the client channel equals the raw robot message (never re-encoded); (c)
every string from the client data channel is forwarded verbatim to the
robot via `publish_json_str` when the robot channel is open; (d) in every
state, anything forwarded to the robot is one of the client's own strings
sent as-is. -/
theorem C1_verbatim_relay (ext : ExternalFns) (st : Go2ConnSt) (relay_dc_open : Bool)
    (message : DCMsg) (hdec : st.decode_message = false) :
    (st.is_validated = true → st.has_on_message = true → relay_dc_open = true →
      go2_to_client_sends ext st relay_dc_open message = [clientSendOf message]) ∧
    (∀ x ∈ go2_to_client_sends ext st relay_dc_open message, x = clientSendOf message) ∧
    (∀ g : Go2ConnSt, ∀ s : String, g.dc_open = true →
      on_datachannel_message (some g) (.textMsg s) = [.raw s]) ∧
    (∀ go2 : Option Go2ConnSt, ∀ m : DCMsg, ∀ x ∈ on_datachannel_message go2 m,
      ∃ s, m = DCMsg.textMsg s ∧ x = .raw s) := by
  have hdec1 : ({ st with dc_open := true } : Go2ConnSt).decode_message = false := hdec
  refine ⟨?_, ?_, ?_, ?_⟩
  · intro hval hmsg hopen
    have hd : dispatch_stage ext { st with dc_open := true } message none =
        .ok ({ st with dc_open := true },
             { msgCB := [{ robot_id := st.robot_num, timestamp := .fin 0,
                           raw_message := some message }] }) := by
      unfold dispatch_stage
      rw [if_neg (by simp [hmsg]), if_pos hdec1]
    have hstep : on_data_channel_message ext st message =
        ({ st with dc_open := true },
         { msgCB := [{ robot_id := st.robot_num, timestamp := .fin 0,
                       raw_message := some message }] }) := by
      simp only [on_data_channel_message, body_validated_eq ext st message hval, hd]
    simp only [go2_to_client_sends, hstep]
    cases message <;> simp [on_go2_message, hopen, clientSendOf]
  · intro x hx
    simp only [go2_to_client_sends] at hx
    rcases on_message_msgCB_decode_false ext st message hdec with h | h <;> rw [h] at hx
    · simp at hx
    · cases relay_dc_open with
      | false => simp [on_go2_message] at hx
      | true =>
        cases message with
        | textMsg s =>
          simp [on_go2_message, clientSendOf] at hx ⊢
          exact hx
        | bytesMsg b =>
          simp [on_go2_message, clientSendOf] at hx ⊢
          exact hx
  · intro g s hopen
    simp [on_datachannel_message, publish_json_str, hopen]
  · intro go2 m x hx
    cases go2 with
    | none => simp [on_datachannel_message] at hx
    | some g =>
      cases m with
      | bytesMsg b => simp [on_datachannel_message] at hx
      | textMsg s =>
        refine ⟨s, rfl, ?_⟩
        have hx2 : x ∈ (if g.dc_open = false then ([] : List Sent) else [Sent.raw s]) := hx
        by_cases hdco : g.dc_open = false
        · rw [if_pos hdco] at hx2; simp at hx2
        · rw [if_neg hdco] at hx2; simpa using hx2

/-- Closed witness for C1: a concrete text message relayed robot-to-client
verbatim, and a concrete client string forwarded robot-ward verbatim. -/
theorem C1_verbatim_relay_witness :
    go2_to_client_sends extUnparseable relayGo2Conn true (.textMsg "hello")
      = [ClientSend.sendStr "hello"] ∧
    on_datachannel_message (some relayGo2Conn) (.textMsg "cmd") = [.raw "cmd"] := by
  have h := C1_verbatim_relay extUnparseable relayGo2Conn true (.textMsg "hello") rfl
  exact ⟨h.1 rfl rfl rfl, h.2.2.1 relayGo2Conn "cmd" rfl⟩

/-- C6: handling of validation messages while the session is unvalidated.
If the challenge data equals the literal success marker the connection
publishes the fixed video-on control message (`publish("", "on", "vid")`),
sets `is_validated`, and invokes the registered `on_validated` callback —
and over any whole message sequence the callback fires at most once, so
this invocation is the only one in the session's lifetime.  For any other
challenge string the transformed challenge is published back as a
"validation"-type message, `is_validated` stays false, and no error is
raised (no retry). -/
theorem C6_validation_flow (ext : ExternalFns) (st : Go2ConnSt) (raw : String)
    (env : Envelope)
    (hval : st.is_validated = false) (hreg : st.has_on_validated = true)
    (hload : ext.loads raw = some env) (hty : env.ty = some "validation") :
    (env.data = some (.str "Validation Ok.") →
      on_data_channel_message ext st (.textMsg raw) =
        ({ st with dc_open := true, is_validated := true },
         { sends := [.pub "vid" "" (.str "on")], msgCB := [], validatedCB := 1,
           loggedError := false })) ∧
    (∀ d, env.data = some (.str d) → d ≠ "Validation Ok." →
      on_data_channel_message ext st (.textMsg raw) =
        ({ st with dc_open := true },
         { sends := [.pub "validation" "" (.str (ext.encrypt_key d))], msgCB := [],
           validatedCB := 0, loggedError := false })) ∧
    (∀ st0 : Go2ConnSt, ∀ msgs : List DCMsg, (handleMessages ext st0 msgs).2 ≤ 1) := by
  have hbody : ∀ d, env.data = some d →
      on_data_channel_message_body ext st (.textMsg raw)
        = .ok (validate_robot_conn ext { st with dc_open := true } d) := by
    intro d hd
    rw [body_unvalidated_text_eq ext st raw hval]
    simp [parse_datachannel_message, hload, getItem, hty, hd, Except.bind]
  refine ⟨?_, ?_, fun st0 msgs => handleMessages_cb_le_one ext msgs st0⟩
  · intro hd
    simp only [on_data_channel_message, hbody _ hd]
    unfold validate_robot_conn
    simp [hreg]
  · intro d hd hne
    simp only [on_data_channel_message, hbody _ hd]
    unfold validate_robot_conn
    simp [hne]

/-- Closed witness for C6 at concrete success and challenge messages. -/
theorem C6_validation_flow_witness :
    on_data_channel_message extValidation unvalidatedConn (.textMsg "val-ok") =
      ({ unvalidatedConn with dc_open := true, is_validated := true },
       { sends := [.pub "vid" "" (.str "on")], msgCB := [], validatedCB := 1,
         loggedError := false }) ∧
    on_data_channel_message extValidation unvalidatedConn (.textMsg "val-ch") =
      ({ unvalidatedConn with dc_open := true },
       { sends := [.pub "validation" "" (.str "encrypted.abc123")], msgCB := [],
         validatedCB := 0, loggedError := false }) := by
  constructor
  · exact (C6_validation_flow extValidation unvalidatedConn "val-ok"
      (validationEnvelope "Validation Ok.") rfl rfl rfl rfl).1 rfl
  · have h := (C6_validation_flow extValidation unvalidatedConn "val-ch"
      (validationEnvelope "abc123") rfl rfl rfl rfl).2.1 "abc123" rfl (by decide)
    simpa using h

/-- C9 counterexample: the claim asserts the decode-framing `ValueError`
is surfaced to the caller of the message-handling pipeline.  At a
concrete non-JSON input the parser does raise `ValueError` and the error
does reach the top of the handler body, but `on_data_channel_message`'s
top-level except catches it and returns normally (only logging it), so
nothing is surfaced to the pipeline's caller. -/
theorem C9_decode_error_swallowed_counterexample :
    parse_datachannel_message extUnparseable.loads "this is not json"
      = .error (.valueError "Failed to decode JSON message") ∧
    on_data_channel_message_body extUnparseable unvalidatedConn (.textMsg "this is not json")
      = .error (.valueError "Failed to decode JSON message") ∧
    on_data_channel_message extUnparseable unvalidatedConn (.textMsg "this is not json")
      = ({ unvalidatedConn with dc_open := true },
         { sends := [], msgCB := [], validatedCB := 0, loggedError := true }) :=
  ⟨rfl, rfl, rfl⟩

/-- C9 (amended): for every input string that is not valid JSON,
`parse_datachannel_message` raises `ValueError` rather than returning
`None`, and that error propagates through the handler body — but the
handler's top-level except catches and logs it, returning normally
(nothing is surfaced to the pipeline's caller); whereas telemetry
validation failures make the parsers return `None` without raising. -/
theorem C9_decode_framing_errors (ext : ExternalFns) (raw : String) (st : Go2ConnSt)
    (d : SportModeInput)
    (hload : ext.loads raw = none) (hval : st.is_validated = false)
    (hpos : d.position.all FVal.isfinite = false) :
    parse_datachannel_message ext.loads raw
      = .error (.valueError "Failed to decode JSON message") ∧
    on_data_channel_message_body ext st (.textMsg raw)
      = .error (.valueError "Failed to decode JSON message") ∧
    on_data_channel_message ext st (.textMsg raw)
      = ({ st with dc_open := true },
         { sends := [], msgCB := [], validatedCB := 0, loggedError := true }) ∧
    parse_sport_mode_state (.sport d) = none := by
  have hp : parse_datachannel_message ext.loads raw
      = .error (.valueError "Failed to decode JSON message") := by
    unfold parse_datachannel_message
    rw [hload]
  have hb : on_data_channel_message_body ext st (.textMsg raw)
      = .error (.valueError "Failed to decode JSON message") := by
    rw [body_unvalidated_text_eq ext st raw hval, hp]
    rfl
  refine ⟨hp, hb, ?_, ?_⟩
  · simp only [on_data_channel_message, hb]
  · unfold parse_sport_mode_state parse_sport_mode_state_body validated_float_list
    simp [hpos, Except.bind, Except.toOption]

/-- Closed witness for C9 (amended) at a concrete non-JSON input and a
concrete non-finite telemetry payload. -/
theorem C9_decode_framing_errors_witness :
    on_data_channel_message extUnparseable unvalidatedConn (.textMsg "oops")
      = ({ unvalidatedConn with dc_open := true },
         { sends := [], msgCB := [], validatedCB := 0, loggedError := true }) ∧
    parse_sport_mode_state
        (.sport { sportInputFinite with position := [.nan, .fin 0, .fin 0] }) = none := by
  have h := C9_decode_framing_errors extUnparseable "oops" unvalidatedConn
    { sportInputFinite with position := [.nan, .fin 0, .fin 0] } rfl rfl (by decide)
  exact ⟨h.2.2.1, h.2.2.2⟩
